import Mathlib

/-!
Verification of `src/sentry/scim/endpoints/constants.py`, a module of
module-level constants for Sentry's SCIM endpoints: schema URN strings,
a default page size, an owner-removal error message, and three canned
error-response dictionaries.

The Python dictionaries hold only strings and lists of strings, so we
embed their values in a small JSON-like value type `JValue` (objects are
association lists, preserving the source's key order).  A renderer and a
fuel-based recursive-descent reader over that type let us state the
JSON round-trip property of the spec.
-/

/-- JSON-like values: strings, arrays, and objects as association lists.
Only the shapes occurring in the constants module are needed. -/
inductive JValue where
  | str : String → JValue
  | arr : List JValue → JValue
  | obj : List (String × JValue) → JValue
deriving Repr

/-- Opening-brace character, written via its code point. -/
def lbrace : Char := Char.ofNat 123

/-- Closing-brace character, written via its code point. -/
def rbrace : Char := Char.ofNat 125

/-- `SCIM_API_LIST = "urn:ietf:params:scim:api:messages:2.0:ListResponse"` -/
def SCIM_API_LIST : String := "urn:ietf:params:scim:api:messages:2.0:ListResponse"

/-- `SCIM_SCHEMA_USER = "urn:ietf:params:scim:schemas:core:2.0:User"` -/
def SCIM_SCHEMA_USER : String := "urn:ietf:params:scim:schemas:core:2.0:User"

/-- `ERR_ONLY_OWNER = "You cannot remove the only remaining owner of the organization."` -/
def ERR_ONLY_OWNER : String := "You cannot remove the only remaining owner of the organization."

/-- `SCIM_API_ERROR = "urn:ietf:params:scim:api:messages:2.0:Error"` -/
def SCIM_API_ERROR : String := "urn:ietf:params:scim:api:messages:2.0:Error"

/-- `SCIM_API_PATCH = "urn:ietf:params:scim:api:messages:2.0:PatchOp"` -/
def SCIM_API_PATCH : String := "urn:ietf:params:scim:api:messages:2.0:PatchOp"

/-- `SCIM_COUNT = 100` (a Python `int`). -/
def SCIM_COUNT : Int := 100

/-- The dictionary
`SCIM_404_USER_RES = {"schemas": [SCIM_API_ERROR], "detail": "User not found."}`. -/
def SCIM_404_USER_RES : JValue :=
  .obj [("schemas", .arr [.str SCIM_API_ERROR]),
        ("detail", .str "User not found.")]

/-- The dictionary
`SCIM_409_USER_EXISTS = {"schemas": [SCIM_API_ERROR], "detail": "User already exists in the database."}`. -/
def SCIM_409_USER_EXISTS : JValue :=
  .obj [("schemas", .arr [.str SCIM_API_ERROR]),
        ("detail", .str "User already exists in the database.")]

/-- The dictionary
`SCIM_400_INVALID_FILTER = {"schemas": [SCIM_API_ERROR], "scimType": "invalidFilter"}`. -/
def SCIM_400_INVALID_FILTER : JValue :=
  .obj [("schemas", .arr [.str SCIM_API_ERROR]),
        ("scimType", .str "invalidFilter")]

/-- Key lookup in an object, as Python's `d[k]` on the embedded dictionaries
(first binding wins; the source dictionaries have no duplicate keys). -/
def JValue.lookupKey : JValue → String → Option JValue
  | .obj ms, k => ms.lookup k
  | _, _ => none

/-- The key list of an object, in source order (Python dicts preserve
insertion order). -/
def JValue.keyList : JValue → List String
  | .obj ms => ms.map Prod.fst
  | _ => []

/-- JSON escaping of one character (only the quote and the backslash need
escaping in the strings at hand; all are printable ASCII). -/
def escChar (c : Char) : String :=
  if c = '"' then "\\\""
  else if c = '\\' then "\\\\"
  else String.singleton c

/-- Render a string as a quoted JSON string literal. -/
def quoteJ (s : String) : String :=
  "\"" ++ String.join (s.data.map escChar) ++ "\""

mutual

/-- Render a `JValue` as compact JSON (no whitespace between tokens). -/
def renderV : JValue → String
  | .str s => quoteJ s
  | .arr xs => "[" ++ renderArr xs ++ "]"
  | .obj ms => String.singleton lbrace ++ renderObj ms ++ String.singleton rbrace

/-- Render array elements, comma separated. -/
def renderArr : List JValue → String
  | [] => ""
  | [x] => renderV x
  | x :: y :: xs => renderV x ++ "," ++ renderArr (y :: xs)

/-- Render object members, comma separated, each as `"key":value`. -/
def renderObj : List (String × JValue) → String
  | [] => ""
  | [(k, v)] => quoteJ k ++ ":" ++ renderV v
  | (k, v) :: m :: ms => quoteJ k ++ ":" ++ renderV v ++ "," ++ renderObj (m :: ms)

end

/-- Read the body of a JSON string literal after its opening quote,
undoing the two escapes `escChar` emits; returns the string read and
the remaining characters.  Fuel guarantees termination. -/
def readStr : Nat → List Char → String → Option (String × List Char)
  | 0, _, _ => none
  | _ + 1, [], _ => none
  | fuel + 1, c :: rest, acc =>
    if c = '"' then some (acc, rest)
    else if c = '\\' then
      match rest with
      | [] => none
      | e :: rest2 =>
        if e = '"' ∨ e = '\\' then readStr fuel rest2 (acc.push e) else none
    else readStr fuel rest (acc.push c)

mutual

/-- Read one JSON value (string, array or object) from the character
stream, returning it and the remaining characters. -/
def readV : Nat → List Char → Option (JValue × List Char)
  | 0, _ => none
  | fuel + 1, cs =>
    match cs with
    | [] => none
    | c :: rest =>
      if c = '"' then
        match readStr (fuel + 1) rest "" with
        | some (s, rest2) => some (.str s, rest2)
        | none => none
      else if c = '[' then
        match rest with
        | ']' :: rest2 => some (.arr [], rest2)
        | _ =>
          match readArr fuel rest with
          | some (xs, rest2) => some (.arr xs, rest2)
          | none => none
      else if c = lbrace then
        match rest with
        | [] => none
        | d :: rest2 =>
          if d = rbrace then some (.obj [], rest2)
          else
            match readObj fuel (d :: rest2) with
            | some (ms, rest3) => some (.obj ms, rest3)
            | none => none
      else none

/-- Read the elements of a non-empty array up to and including the
closing bracket. -/
def readArr : Nat → List Char → Option (List JValue × List Char)
  | 0, _ => none
  | fuel + 1, cs =>
    match readV fuel cs with
    | some (x, rest) =>
      match rest with
      | ',' :: rest2 =>
        match readArr fuel rest2 with
        | some (xs, rest3) => some (x :: xs, rest3)
        | none => none
      | ']' :: rest2 => some ([x], rest2)
      | _ => none
    | none => none

/-- Read the members of a non-empty object up to and including the
closing brace. -/
def readObj : Nat → List Char → Option (List (String × JValue) × List Char)
  | 0, _ => none
  | fuel + 1, cs =>
    match cs with
    | [] => none
    | c :: rest =>
      if c = '"' then
        match readStr (fuel + 1) rest "" with
        | some (k, rest2) =>
          match rest2 with
          | ':' :: rest3 =>
            match readV fuel rest3 with
            | some (v, rest4) =>
              match rest4 with
              | [] => none
              | ',' :: rest5 =>
                match readObj fuel rest5 with
                | some (ms, rest6) => some ((k, v) :: ms, rest6)
                | none => none
              | d :: rest5 => if d = rbrace then some ([(k, v)], rest5) else none
            | none => none
          | _ => none
        | none => none
      else none

end

/-- Serialize a `JValue` to its JSON text. -/
def dumpsJ (v : JValue) : String := renderV v

/-- Read a complete JSON value from a string; the whole input must be
consumed.  The fuel bound exceeds any depth reachable in the input. -/
def loadsJ (s : String) : Option JValue :=
  match readV (s.length + 1) s.data with
  | some (v, []) => some v
  | _ => none

/-- Claim C1: every one of the three canned error-response mappings
(`SCIM_404_USER_RES`, `SCIM_409_USER_EXISTS`, `SCIM_400_INVALID_FILTER`)
has a `schemas` field equal to the single-element sequence containing
exactly the string `SCIM_API_ERROR`. -/
theorem c1_error_mappings_schemas :
    SCIM_404_USER_RES.lookupKey "schemas" = some (.arr [.str SCIM_API_ERROR]) ∧
    SCIM_409_USER_EXISTS.lookupKey "schemas" = some (.arr [.str SCIM_API_ERROR]) ∧
    SCIM_400_INVALID_FILTER.lookupKey "schemas" = some (.arr [.str SCIM_API_ERROR]) :=
  ⟨rfl, rfl, rfl⟩

/-- Claim C2: each of the four schema-URN constants equals, character for
character, its specified SCIM 2.0 URN. -/
theorem c2_schema_urns_exact :
    SCIM_API_LIST = "urn:ietf:params:scim:api:messages:2.0:ListResponse" ∧
    SCIM_SCHEMA_USER = "urn:ietf:params:scim:schemas:core:2.0:User" ∧
    SCIM_API_ERROR = "urn:ietf:params:scim:api:messages:2.0:Error" ∧
    SCIM_API_PATCH = "urn:ietf:params:scim:api:messages:2.0:PatchOp" :=
  ⟨rfl, rfl, rfl, rfl⟩

/-- Claim C3: `SCIM_404_USER_RES` has exactly the two keys `schemas` and
`detail`, with `schemas` mapped to `[SCIM_API_ERROR]` and `detail` mapped
to the string `User not found.`. -/
theorem c3_scim_404_user_res_shape :
    SCIM_404_USER_RES.keyList = ["schemas", "detail"] ∧
    SCIM_404_USER_RES.lookupKey "schemas" = some (.arr [.str SCIM_API_ERROR]) ∧
    SCIM_404_USER_RES.lookupKey "detail" = some (.str "User not found.") :=
  ⟨rfl, rfl, rfl⟩

/-- Claim C4: `SCIM_409_USER_EXISTS` has exactly the two keys `schemas` and
`detail`, with `schemas` mapped to `[SCIM_API_ERROR]` and `detail` mapped
to the string `User already exists in the database.`. -/
theorem c4_scim_409_user_exists_shape :
    SCIM_409_USER_EXISTS.keyList = ["schemas", "detail"] ∧
    SCIM_409_USER_EXISTS.lookupKey "schemas" = some (.arr [.str SCIM_API_ERROR]) ∧
    SCIM_409_USER_EXISTS.lookupKey "detail" = some (.str "User already exists in the database.") :=
  ⟨rfl, rfl, rfl⟩

/-- Claim C5: `SCIM_400_INVALID_FILTER` has exactly the two keys `schemas`
and `scimType`, with `schemas` mapped to `[SCIM_API_ERROR]` and `scimType`
mapped exactly to the string `invalidFilter`. -/
theorem c5_scim_400_invalid_filter_shape :
    SCIM_400_INVALID_FILTER.keyList = ["schemas", "scimType"] ∧
    SCIM_400_INVALID_FILTER.lookupKey "schemas" = some (.arr [.str SCIM_API_ERROR]) ∧
    SCIM_400_INVALID_FILTER.lookupKey "scimType" = some (.str "invalidFilter") :=
  ⟨rfl, rfl, rfl⟩

/-- Claim C6: `SCIM_COUNT` equals the integer `100`. -/
theorem c6_scim_count_is_100 : SCIM_COUNT = 100 := rfl

/-- Claim C7: `ERR_ONLY_OWNER` equals exactly the sentence
`You cannot remove the only remaining owner of the organization.`,
trailing period included. -/
theorem c7_err_only_owner_exact :
    ERR_ONLY_OWNER = "You cannot remove the only remaining owner of the organization." :=
  rfl

/-- Claim C8: for each of the three canned error mappings, serializing it
to JSON and re-parsing the result yields exactly the original structure
(round-trip equality). -/
theorem c8_json_roundtrip :
    loadsJ (dumpsJ SCIM_404_USER_RES) = some SCIM_404_USER_RES ∧
    loadsJ (dumpsJ SCIM_409_USER_EXISTS) = some SCIM_409_USER_EXISTS ∧
    loadsJ (dumpsJ SCIM_400_INVALID_FILTER) = some SCIM_400_INVALID_FILTER :=
  ⟨rfl, rfl, rfl⟩

/-- Claim C10: the four schema-URN constants are pairwise distinct strings,
so a payload tagged with one URN is never ambiguous with a payload of
another kind. -/
theorem c10_schema_urns_pairwise_distinct :
    SCIM_API_LIST ≠ SCIM_SCHEMA_USER ∧
    SCIM_API_LIST ≠ SCIM_API_ERROR ∧
    SCIM_API_LIST ≠ SCIM_API_PATCH ∧
    SCIM_SCHEMA_USER ≠ SCIM_API_ERROR ∧
    SCIM_SCHEMA_USER ≠ SCIM_API_PATCH ∧
    SCIM_API_ERROR ≠ SCIM_API_PATCH :=
  ⟨by decide, by decide, by decide, by decide, by decide, by decide⟩
